import Mathlib

/-!
Shallow embedding of the transaction throttler
(go/vt/vttablet/tabletserver/txthrottler/tx_throttler.go).

External collaborators (the wrapped rate limiter created by
throttlerFactory, its UpdateConfiguration call, the prototext
unmarshalling and the controller-parameter verifier) live outside the
embedded package; their outcomes are passed in as parameters, and the
side effects the package performs on them are recorded in an explicit
action trace.
-/

namespace TxThrottlerSpec

/-- Tablet roles from topodata.TabletType; only the distinction
REPLICA versus everything else matters to this package. -/
inductive TabletType where
  | primary
  | replica
  | rdonly
  | other
deriving DecidableEq, Repr

/-- querypb.Target: keyspace, shard, cell and tablet type. -/
structure Target where
  keyspace : String
  shard : String
  cell : String
  tabletType : TabletType
deriving DecidableEq, Repr

/-- discovery.TabletHealth as far as this package reads it: the target
of the tablet the event is about, and its replication lag. -/
structure TabletHealth where
  target : Target
  replicationLagSeconds : Nat
deriving DecidableEq, Repr

/-- throttlerdatapb.Configuration; only MaxReplicationLagSec is read by
this package (when calling throttlerFactory). -/
structure ThrottlerdataConfiguration where
  maxReplicationLagSec : Int
deriving DecidableEq, Repr

/-- txThrottlerConfig. throttlerConfig is a pointer in Go, hence Option. -/
structure txThrottlerConfig where
  enabled : Bool
  throttlerConfig : Option ThrottlerdataConfiguration
  healthCheckCells : List String
deriving DecidableEq, Repr

/-- Observable side effects on subordinate resources and the logger,
recorded in order. -/
inductive Action where
  | logInfo (msg : String)
  | logError (msg : String)
  | throttlerCreated
  | updateConfigCalled
  | throttlerClosed
  | healthCheckCreated
  | consumerSpawned
  | cancelInvoked
  | healthCheckClosed
  | watcherStarted (cell : String)
  | watcherStopped (cell : String)
  | recordLag (now : Nat) (h : TabletHealth)
deriving DecidableEq, Repr

/-- txThrottlerState. The wrapped throttler, the stored context-cancel
function and the health check are pointers or interfaces in Go, modelled
as Option of an identifier; topology watchers are identified by the cell
they were created for. -/
structure txThrottlerState where
  throttler : Option Nat
  stopHealthCheck : Option Nat
  healthCheck : Option Nat
  topologyWatchers : List String
deriving DecidableEq, Repr

/-- TxThrottler: configuration, open state (nil when closed) and the
target pointer set by InitDBConfig (nil until then). -/
structure TxThrottler where
  config : txThrottlerConfig
  state : Option txThrottlerState
  target : Option Target
deriving DecidableEq, Repr

/-- createTxThrottlerHealthCheck: creates a cancellable context and
stores its cancel function in ts.stopHealthCheck, creates the health
check via healthCheckFactory, subscribes, and spawns the consumer
goroutine. -/
def createTxThrottlerHealthCheck (ts : txThrottlerState) :
    txThrottlerState × List Action :=
  ({ ts with stopHealthCheck := some 0, healthCheck := some 0 },
   [Action.healthCheckCreated, Action.consumerSpawned])

/-- newTxThrottlerState. fr is the outcome of throttlerFactory and ur
the outcome of t.UpdateConfiguration (both live outside this package).
On a factory error nothing was created; on an UpdateConfiguration error
the created throttler is closed before returning the error; otherwise
the health check is created and one topology watcher is started per
configured cell. -/
def newTxThrottlerState (fr : Except String Nat) (ur : Except String Unit)
    (config : txThrottlerConfig) (_keyspace _shard _cell : String) :
    Except String txThrottlerState × List Action :=
  match fr with
  | Except.error e => (Except.error e, [])
  | Except.ok tid =>
    match ur with
    | Except.error e =>
      (Except.error e,
       [Action.throttlerCreated, Action.updateConfigCalled, Action.throttlerClosed])
    | Except.ok _ =>
      let st0 : txThrottlerState :=
        { throttler := some tid, stopHealthCheck := none,
          healthCheck := none, topologyWatchers := [] }
      let hc := createTxThrottlerHealthCheck st0
      let st2 := { hc.1 with topologyWatchers := config.healthCheckCells }
      (Except.ok st2,
       [Action.throttlerCreated, Action.updateConfigCalled] ++ hc.2
         ++ config.healthCheckCells.map Action.watcherStarted)

/-- txThrottlerState.deallocateResources: stops every topology watcher,
closes the health check, closes the throttler, and nils those fields.
The stored stopHealthCheck cancel function is not invoked and not
cleared. -/
def txThrottlerState.deallocateResources (ts : txThrottlerState) :
    txThrottlerState × List Action :=
  ({ ts with topologyWatchers := [], healthCheck := none, throttler := none },
   ts.topologyWatchers.map Action.watcherStopped
     ++ [Action.healthCheckClosed, Action.throttlerClosed])

/-- Result of a Go function that either returns a bool or panics. -/
inductive ThrottleOutcome where
  | value (b : Bool)
  | panicked (msg : String)
deriving DecidableEq, Repr

/-- txThrottlerState.throttle. d is the duration (nanoseconds, an Int)
returned by the wrapped throttler Throttle(0) call; the result is
d > 0. A nil wrapped throttler panics. -/
def txThrottlerState.throttle (d : Int) (ts : txThrottlerState) :
    ThrottleOutcome :=
  match ts.throttler with
  | none =>
    ThrottleOutcome.panicked
      "BUG: throttle called after deallocateResources was called."
  | some _ => ThrottleOutcome.value (decide (d > 0))

/-- TxThrottler.Throttle: false when disabled; panics on a closed
enabled throttler; otherwise delegates to the state. -/
def TxThrottler.Throttle (d : Int) (t : TxThrottler) : ThrottleOutcome :=
  if t.config.enabled = false then ThrottleOutcome.value false
  else
    match t.state with
    | none =>
      ThrottleOutcome.panicked "BUG: Throttle() called on a closed TxThrottler"
    | some ts => ts.throttle d

/-- Result of TxThrottler.Open: success carries the updated receiver,
an error carries the updated receiver (state set to the nil result of
newTxThrottlerState) and the error, and dereferencing a nil target
panics. -/
inductive OpenResult where
  | ok (t : TxThrottler)
  | err (t : TxThrottler) (e : String)
  | nilPanic
deriving DecidableEq, Repr

/-- TxThrottler.Open: no-op when disabled or already open; otherwise
logs, dereferences t.target (panicking when it is nil) and builds a new
state. On error the state field receives the nil pointer returned
alongside the error. -/
def TxThrottler.Open (fr : Except String Nat) (ur : Except String Unit)
    (t : TxThrottler) : OpenResult × List Action :=
  if t.config.enabled = false then (OpenResult.ok t, [])
  else
    match t.state with
    | some _ => (OpenResult.ok t, [])
    | none =>
      match t.target with
      | none => (OpenResult.nilPanic, [Action.logInfo "TxThrottler: opening"])
      | some tgt =>
        match newTxThrottlerState fr ur t.config tgt.keyspace tgt.shard tgt.cell with
        | (Except.ok st, acts) =>
          (OpenResult.ok { t with state := some st },
           Action.logInfo "TxThrottler: opening" :: acts)
        | (Except.error e, acts) =>
          (OpenResult.err { t with state := none } e,
           Action.logInfo "TxThrottler: opening" :: acts)

/-- TxThrottler.Close: no-op when disabled or already closed; otherwise
deallocates the state resources, nils the state and logs. -/
def TxThrottler.Close (t : TxThrottler) : TxThrottler × List Action :=
  if t.config.enabled = false then (t, [])
  else
    match t.state with
    | none => (t, [])
    | some ts =>
      ({ t with state := none },
       (txThrottlerState.deallocateResources ts).2
         ++ [Action.logInfo "TxThrottler: closed"])

/-- TxThrottler.InitDBConfig at the value level: unconditionally stores
the (cloned) target; there is no check of the open state. The aliasing
content of proto.Clone is modelled separately at the heap level by
initDBConfigClone. -/
def TxThrottler.InitDBConfig (tgt : Target) (t : TxThrottler) : TxThrottler :=
  { t with target := some tgt }

/-- txThrottlerState.StatsUpdate: events whose tablet type is not
REPLICA are dropped; the rest are handed to the wrapped throttler via
RecordReplicationLag stamped with the current time. Calling through a
nil wrapped throttler panics (none). -/
def txThrottlerState.StatsUpdate (now : Nat) (ts : txThrottlerState)
    (h : TabletHealth) : Option (List Action) :=
  if h.target.tabletType ≠ TabletType.replica then some []
  else
    match ts.throttler with
    | none => none
    | some _ => some [Action.recordLag now h]

/-- newTxThrottler. verify is the outcome function of
throttler.MaxReplicationLagModuleConfig.Verify (outside this package),
applied to the possibly-nil throttlerConfig pointer. -/
def newTxThrottler (verify : Option ThrottlerdataConfiguration → Option String)
    (config : txThrottlerConfig) : Except String TxThrottler :=
  if config.enabled = true then
    match verify config.throttlerConfig with
    | some e => Except.error e
    | none =>
      if config.healthCheckCells.length = 0 then
        Except.error "empty healthCheckCells given"
      else Except.ok { config := config, state := none, target := none }
  else Except.ok { config := config, state := none, target := none }

/-- The relevant fields of tabletenv.TabletConfig. The prototext config
string is abstracted by the unmarshal outcome parameter um. -/
structure TabletConfig where
  enableTxThrottler : Bool
  txThrottlerHealthCheckCells : List String
deriving DecidableEq, Repr

/-- tryCreateTxThrottler. um is the outcome of prototext.Unmarshal on
config.TxThrottlerConfig (outside this package). -/
def tryCreateTxThrottler
    (verify : Option ThrottlerdataConfiguration → Option String)
    (um : Except String ThrottlerdataConfiguration) (cfg : TabletConfig) :
    Except String TxThrottler :=
  if cfg.enableTxThrottler = false then
    newTxThrottler verify
      { enabled := false, throttlerConfig := none, healthCheckCells := [] }
  else
    match um with
    | Except.error e => Except.error e
    | Except.ok tc =>
      newTxThrottler verify
        { enabled := true, throttlerConfig := some tc,
          healthCheckCells := cfg.txThrottlerHealthCheckCells }

/-- NewTxThrottler: on any error from tryCreateTxThrottler it logs the
error and substitutes a freshly built disabled throttler; the Go code
panics (none) in the unreachable case where even that fails. -/
def NewTxThrottler
    (verify : Option ThrottlerdataConfiguration → Option String)
    (um : Except String ThrottlerdataConfiguration) (cfg : TabletConfig) :
    Option (TxThrottler × List Action) :=
  match tryCreateTxThrottler verify um cfg with
  | Except.ok t => some (t, [Action.logInfo "Initialized transaction throttler"])
  | Except.error e =>
    match newTxThrottler verify
        { enabled := false, throttlerConfig := none, healthCheckCells := [] } with
    | Except.ok t => some (t, [Action.logError e])
    | Except.error _ => none

/-- The degenerate disabled throttler value NewTxThrottler substitutes
on a construction error. -/
def disabledTxThrottler : TxThrottler :=
  { config := { enabled := false, throttlerConfig := none, healthCheckCells := [] },
    state := none, target := none }

/-- Default Target value used as the read default at the heap level. -/
def defaultTarget : Target :=
  { keyspace := "", shard := "", cell := "", tabletType := TabletType.other }

/-- Heap-level model of InitDBConfig storing proto.Clone(target): the
heap is a list of Target cells addressed by index; the clone allocates
a fresh cell holding a copy of the value at the caller address and the
throttler stores the fresh address. -/
def initDBConfigClone (heap : List Target) (addr : Nat) : List Target × Nat :=
  (heap ++ [heap.getD addr defaultTarget], heap.length)

/-- One call of the public interface, for quantifying over call
sequences. An open call carries the outcomes of the external factory
and configuration-update calls it would make; a throttle call carries
the duration the wrapped rate limiter would return. -/
inductive Call where
  | openCall (fr : Except String Nat) (ur : Except String Unit)
  | closeCall
  | initTargetCall (tgt : Target)
  | throttleCall (d : Int)
deriving Repr

/-- Runs one call; none models a panic. The third component is the
boolean a throttle call returned, when the call was a throttle call. -/
def runCall (t : TxThrottler) (c : Call) :
    Option (TxThrottler × List Action × Option Bool) :=
  match c with
  | Call.openCall fr ur =>
    match TxThrottler.Open fr ur t with
    | (OpenResult.ok t2, acts) => some (t2, acts, none)
    | (OpenResult.err t2 _, acts) => some (t2, acts, none)
    | (OpenResult.nilPanic, _) => none
  | Call.closeCall =>
    some ((TxThrottler.Close t).1, (TxThrottler.Close t).2, none)
  | Call.initTargetCall tgt =>
    some (TxThrottler.InitDBConfig tgt t, [], none)
  | Call.throttleCall d =>
    match TxThrottler.Throttle d t with
    | ThrottleOutcome.value b => some (t, [], some b)
    | ThrottleOutcome.panicked _ => none

/-- Runs a sequence of calls, collecting the action trace and the
results of every throttle call; none models a panic somewhere in the
sequence. -/
def runSeq (t : TxThrottler) : List Call → Option (TxThrottler × List Action × List Bool)
  | [] => some (t, [], [])
  | c :: rest =>
    match runCall t c with
    | none => none
    | some (t2, acts, ob) =>
      match runSeq t2 rest with
      | none => none
      | some (tf, actsRest, bs) => some (tf, acts ++ actsRest, ob.toList ++ bs)

/-- A sample enabled throttler with target set and state closed. -/
def sampleClosed : TxThrottler :=
  { config := { enabled := true, throttlerConfig := some { maxReplicationLagSec := 10 },
                healthCheckCells := ["cell1"] },
    state := none,
    target := some { keyspace := "ks", shard := "0", cell := "cell1",
                     tabletType := TabletType.replica } }

/-- The state a successful open of sampleClosed builds when the factory
returns throttler id 7. -/
def sampleState : txThrottlerState :=
  { throttler := some 7, stopHealthCheck := some 0, healthCheck := some 0,
    topologyWatchers := ["cell1"] }

/-- sampleClosed after a successful open. -/
def sampleOpened : TxThrottler :=
  { sampleClosed with state := some sampleState }

/-- The action trace of a successful open of sampleClosed. -/
def sampleOpenActs : List Action :=
  [Action.logInfo "TxThrottler: opening", Action.throttlerCreated,
   Action.updateConfigCalled, Action.healthCheckCreated,
   Action.consumerSpawned, Action.watcherStarted "cell1"]

/-- The throttler value Open leaves behind when it does not panic: the
receiver after the call, whether Open returned nil or an error. -/
def afterOpen (fr : Except String Nat) (ur : Except String Unit)
    (t : TxThrottler) : Option TxThrottler :=
  match (TxThrottler.Open fr ur t).1 with
  | OpenResult.ok t2 => some t2
  | OpenResult.err t2 _ => some t2
  | OpenResult.nilPanic => none

/-- A REPLICA health event whose keyspace and shard both differ from
the sampleClosed target. -/
def mismatchedReplicaEvent : TabletHealth :=
  { target := { keyspace := "otherks", shard := "80-", cell := "cell1",
                tabletType := TabletType.replica },
    replicationLagSeconds := 3 }

/-- A PRIMARY health event with high lag. -/
def samplePrimaryEvent : TabletHealth :=
  { target := { keyspace := "ks", shard := "0", cell := "cell1",
                tabletType := TabletType.primary },
    replicationLagSeconds := 100 }

/-- A second target value, distinct from the sampleClosed target. -/
def newTargetB : Target :=
  { keyspace := "ks2", shard := "-80", cell := "cell2",
    tabletType := TabletType.replica }

/-- An enabled throttler on which InitDBConfig was never called. -/
def sampleNoTarget : TxThrottler :=
  { config := { enabled := true,
                throttlerConfig := some { maxReplicationLagSec := 10 },
                healthCheckCells := ["cell1"] },
    state := none, target := none }

/-- A verifier outcome that accepts every configuration. -/
def acceptingVerify : Option ThrottlerdataConfiguration → Option String :=
  fun _ => none

/-- A TabletConfig with the throttler enabled and one cell. -/
def sampleTabletConfig : TabletConfig :=
  { enableTxThrottler := true, txThrottlerHealthCheckCells := ["c"] }

/-- Claim C1: with enabled set to false, every call sequence runs
without panicking, every throttle call in it returns false, and no
subordinate resource is ever touched (the action trace of the whole
sequence is empty, so open and close are no-ops). -/
theorem claim1 : ∀ (cs : List Call) (t : TxThrottler),
    t.config.enabled = false →
    ∃ tf bs, runSeq t cs = some (tf, [], bs)
      ∧ tf.config.enabled = false ∧ ∀ b ∈ bs, b = false := by
  intro cs
  induction cs with
  | nil =>
    intro t h
    exact ⟨t, [], rfl, h, by simp⟩
  | cons c rest ih =>
    intro t h
    cases c with
    | openCall fr ur =>
      obtain ⟨tf, bs, hr, hc, hb⟩ := ih t h
      refine ⟨tf, bs, ?_, hc, hb⟩
      simp [runSeq, runCall, TxThrottler.Open, h, hr]
    | closeCall =>
      obtain ⟨tf, bs, hr, hc, hb⟩ := ih t h
      refine ⟨tf, bs, ?_, hc, hb⟩
      simp [runSeq, runCall, TxThrottler.Close, h, hr]
    | initTargetCall tgt =>
      obtain ⟨tf, bs, hr, hc, hb⟩ := ih (TxThrottler.InitDBConfig tgt t) h
      refine ⟨tf, bs, ?_, hc, hb⟩
      simp [runSeq, runCall, hr]
    | throttleCall d =>
      obtain ⟨tf, bs, hr, hc, hb⟩ := ih t h
      refine ⟨tf, false :: bs, ?_, hc, ?_⟩
      · simp [runSeq, runCall, TxThrottler.Throttle, h, hr]
      · intro b hmem
        rcases List.mem_cons.mp hmem with h1 | h1
        · exact h1
        · exact hb b h1

/-- Witness for claim1 at a concrete disabled throttler and a concrete
call sequence mixing throttle, open, init and close calls. -/
theorem claim1_witness :
    ∃ tf bs,
      runSeq disabledTxThrottler
        [Call.throttleCall 5, Call.openCall (Except.ok 1) (Except.ok ()),
         Call.initTargetCall newTargetB, Call.closeCall, Call.throttleCall 7]
        = some (tf, [], bs)
      ∧ tf.config.enabled = false ∧ ∀ b ∈ bs, b = false :=
  claim1
    [Call.throttleCall 5, Call.openCall (Except.ok 1) (Except.ok ()),
     Call.initTargetCall newTargetB, Call.closeCall, Call.throttleCall 7]
    disabledTxThrottler rfl

/-- Claim C2: calling Throttle on an enabled throttler whose state is
nil (CLOSED) panics instead of returning a verdict. -/
theorem claim2 : ∀ (t : TxThrottler) (d : Int),
    t.config.enabled = true → t.state = none →
    TxThrottler.Throttle d t
      = ThrottleOutcome.panicked "BUG: Throttle() called on a closed TxThrottler" := by
  intro t d h1 h2
  simp [TxThrottler.Throttle, h1, h2]

/-- Witness for claim2 at a concrete enabled closed throttler. -/
theorem claim2_witness :
    TxThrottler.Throttle 5 sampleClosed
      = ThrottleOutcome.panicked "BUG: Throttle() called on a closed TxThrottler" :=
  claim2 sampleClosed 5 rfl rfl

/-- Claim C7: StatsUpdate drops every event whose tablet type is not
REPLICA, and hands every REPLICA event to the wrapped throttler via
RecordReplicationLag stamped with the receive time. -/
theorem claim7 : ∀ (ts : txThrottlerState) (h : TabletHealth) (now i : Nat),
    ts.throttler = some i →
    (h.target.tabletType ≠ TabletType.replica →
      txThrottlerState.StatsUpdate now ts h = some [])
    ∧ (h.target.tabletType = TabletType.replica →
      txThrottlerState.StatsUpdate now ts h = some [Action.recordLag now h]) := by
  intro ts h now i hi
  constructor
  · intro hne
    simp [txThrottlerState.StatsUpdate, hne]
  · intro he
    simp [txThrottlerState.StatsUpdate, he, hi]

/-- Witness for claim7 at a concrete open state and a concrete PRIMARY
event. -/
theorem claim7_witness :
    (samplePrimaryEvent.target.tabletType ≠ TabletType.replica →
      txThrottlerState.StatsUpdate 5 sampleState samplePrimaryEvent = some [])
    ∧ (samplePrimaryEvent.target.tabletType = TabletType.replica →
      txThrottlerState.StatsUpdate 5 sampleState samplePrimaryEvent
        = some [Action.recordLag 5 samplePrimaryEvent]) :=
  claim7 sampleState samplePrimaryEvent 5 7 rfl

/-- Claim C3 counterexample: a throttler opened for target (ks, 0)
receives a REPLICA event whose keyspace and shard both differ from that
target, and StatsUpdate forwards it to RecordReplicationLag instead of
dropping it: the fan-in performs no shard-target filtering. -/
theorem claim3_counterexample :
    (TxThrottler.Open (Except.ok 7) (Except.ok ()) sampleClosed).1
        = OpenResult.ok sampleOpened
    ∧ sampleOpened.state = some sampleState
    ∧ sampleOpened.target = some { keyspace := "ks", shard := "0", cell := "cell1",
                                   tabletType := TabletType.replica }
    ∧ mismatchedReplicaEvent.target.shard ≠ "0"
    ∧ mismatchedReplicaEvent.target.keyspace ≠ "ks"
    ∧ txThrottlerState.StatsUpdate 5 sampleState mismatchedReplicaEvent
        = some [Action.recordLag 5 mismatchedReplicaEvent] := by
  refine ⟨by decide, rfl, rfl, by decide, by decide, by decide⟩

/-- Claim C3 amended: the fan-in drops events by tablet type only; a
REPLICA event is forwarded to RecordReplicationLag for every keyspace
and every shard, matching or not (the state does not even store the
configured target). -/
theorem claim3_amended :
    ∀ (ts : txThrottlerState) (ks sh cl : String) (lag now i : Nat),
    ts.throttler = some i →
    txThrottlerState.StatsUpdate now ts
        { target := { keyspace := ks, shard := sh, cell := cl,
                      tabletType := TabletType.replica },
          replicationLagSeconds := lag }
      = some [Action.recordLag now
          { target := { keyspace := ks, shard := sh, cell := cl,
                        tabletType := TabletType.replica },
            replicationLagSeconds := lag }] := by
  intro ts ks sh cl lag now i hi
  simp [txThrottlerState.StatsUpdate, hi]

/-- Witness for the amended claim3 at the concrete mismatched event. -/
theorem claim3_amended_witness :
    txThrottlerState.StatsUpdate 5 sampleState
        { target := { keyspace := "otherks", shard := "80-", cell := "cell1",
                      tabletType := TabletType.replica },
          replicationLagSeconds := 3 }
      = some [Action.recordLag 5
          { target := { keyspace := "otherks", shard := "80-", cell := "cell1",
                        tabletType := TabletType.replica },
            replicationLagSeconds := 3 }] :=
  claim3_amended sampleState "otherks" "80-" "cell1" 3 5 7 rfl

/-- Claim C10: Open on an enabled, closed throttler whose target was
never initialized panics on the nil target dereference. -/
theorem claim10 : ∀ (fr : Except String Nat) (ur : Except String Unit)
    (t : TxThrottler),
    t.config.enabled = true → t.state = none → t.target = none →
    (TxThrottler.Open fr ur t).1 = OpenResult.nilPanic := by
  intro fr ur t h1 h2 h3
  simp [TxThrottler.Open, h1, h2, h3]

/-- Witness for claim10 at a concrete enabled throttler without a
target. -/
theorem claim10_witness :
    (TxThrottler.Open (Except.ok 0) (Except.ok ()) sampleNoTarget).1
      = OpenResult.nilPanic :=
  claim10 (Except.ok 0) (Except.ok ()) sampleNoTarget rfl rfl rfl

/-- Claim C4: every successful fresh open spawns the consumer task, yet
the close path (Close and deallocateResources) never invokes the stored
cancellation function, so the consumer is never signalled to stop; the
stopHealthCheck field is left untouched by deallocateResources. -/
theorem claim4_no_cancel :
    (∀ (fr : Except String Nat) (ur : Except String Unit)
        (t t2 : TxThrottler) (acts : List Action),
        t.config.enabled = true → t.state = none →
        TxThrottler.Open fr ur t = (OpenResult.ok t2, acts) →
        Action.consumerSpawned ∈ acts ∧ t2.state.isSome = true)
    ∧ (∀ t : TxThrottler, Action.cancelInvoked ∉ (TxThrottler.Close t).2)
    ∧ (∀ ts : txThrottlerState,
        Action.cancelInvoked ∉ (txThrottlerState.deallocateResources ts).2
        ∧ (txThrottlerState.deallocateResources ts).1.stopHealthCheck
            = ts.stopHealthCheck) := by
  refine ⟨?_, ?_, ?_⟩
  · intro fr ur t t2 acts h1 h2 hopen
    cases ht : t.target with
    | none => simp [TxThrottler.Open, h1, h2, ht] at hopen
    | some tgt =>
      cases fr with
      | error e =>
        simp [TxThrottler.Open, h1, h2, ht, newTxThrottlerState] at hopen
      | ok tid =>
        cases ur with
        | error e =>
          simp [TxThrottler.Open, h1, h2, ht, newTxThrottlerState] at hopen
        | ok u =>
          simp [TxThrottler.Open, h1, h2, ht, newTxThrottlerState,
            createTxThrottlerHealthCheck] at hopen
          obtain ⟨ht2, hacts⟩ := hopen
          subst hacts
          constructor
          · simp
          · rw [← ht2]
            rfl
  · intro t
    by_cases he : t.config.enabled = false
    · simp [TxThrottler.Close, he]
    · cases hs : t.state with
      | none => simp [TxThrottler.Close, he, hs]
      | some ts =>
        simp [TxThrottler.Close, he, hs,
          txThrottlerState.deallocateResources, List.mem_map]
  · intro ts
    constructor
    · simp [txThrottlerState.deallocateResources, List.mem_map]
    · rfl

/-- Witness for claim4_no_cancel: the concrete open of sampleClosed
spawns the consumer and produces an open state. -/
theorem claim4_witness :
    Action.consumerSpawned ∈ sampleOpenActs
    ∧ sampleOpened.state.isSome = true :=
  claim4_no_cancel.1 (Except.ok 7) (Except.ok ()) sampleClosed sampleOpened
    sampleOpenActs rfl rfl (by decide)

/-- Claim C5 counterexample: InitDBConfig is not restricted to the
CLOSED state: on a concrete OPEN throttler the call proceeds normally,
overwrites the target and leaves the open state in place. -/
theorem claim5_counterexample :
    sampleOpened.state.isSome = true
    ∧ (TxThrottler.InitDBConfig newTargetB sampleOpened).target = some newTargetB
    ∧ (TxThrottler.InitDBConfig newTargetB sampleOpened).state
        = some sampleState := by
  refine ⟨rfl, rfl, rfl⟩

/-- Claim C5 amended: InitDBConfig stores a defensive clone of its
argument — the clone lives at a fresh heap address, holds the value the
caller passed, and keeps that value even after the caller mutates its
own copy — but the code does not enforce the CLOSED-only restriction:
the call succeeds in any state and only replaces the target field. -/
theorem claim5_amended :
    (∀ (heap : List Target) (addr : Nat) (v : Target), addr < heap.length →
      (initDBConfigClone heap addr).2 ≠ addr
      ∧ (initDBConfigClone heap addr).1[(initDBConfigClone heap addr).2]?
          = heap[addr]?
      ∧ ((initDBConfigClone heap addr).1.set addr v)[(initDBConfigClone heap addr).2]?
          = heap[addr]?)
    ∧ (∀ (t : TxThrottler) (tgt : Target),
        (TxThrottler.InitDBConfig tgt t).target = some tgt
        ∧ (TxThrottler.InitDBConfig tgt t).state = t.state) := by
  constructor
  · intro heap addr v hlt
    have hx : heap.getD addr defaultTarget = heap[addr] := by
      simp [List.getD_eq_getElem?_getD, List.getElem?_eq_getElem hlt]
    have hne : heap.length ≠ addr := (Nat.ne_of_lt hlt).symm
    refine ⟨hne, ?_, ?_⟩
    · simp [initDBConfigClone, List.getElem?_concat_length, hx,
        List.getElem?_eq_getElem hlt]
    · rw [show ((initDBConfigClone heap addr).1.set addr v)[(initDBConfigClone heap addr).2]?
          = (initDBConfigClone heap addr).1[(initDBConfigClone heap addr).2]? from
        List.getElem?_set_ne (fun hc => hne hc.symm)]
      simp [initDBConfigClone, List.getElem?_concat_length, hx,
        List.getElem?_eq_getElem hlt]
  · intro t tgt
    exact ⟨rfl, rfl⟩

/-- Witness for the amended claim5 on a concrete two-cell heap. -/
theorem claim5_witness :
    0 < ([defaultTarget, newTargetB] : List Target).length
    ∧ ((initDBConfigClone [defaultTarget, newTargetB] 0).2 ≠ 0
      ∧ (initDBConfigClone [defaultTarget, newTargetB] 0).1[(initDBConfigClone [defaultTarget, newTargetB] 0).2]?
          = ([defaultTarget, newTargetB] : List Target)[0]?
      ∧ ((initDBConfigClone [defaultTarget, newTargetB] 0).1.set 0 newTargetB)[(initDBConfigClone [defaultTarget, newTargetB] 0).2]?
          = ([defaultTarget, newTargetB] : List Target)[0]?) :=
  ⟨by decide, claim5_amended.1 [defaultTarget, newTargetB] 0 newTargetB (by decide)⟩

/-- Claim C6: whenever tryCreateTxThrottler fails (bad unmarshal,
failing verification, or empty cell list with the throttler enabled),
NewTxThrottler does not fail the caller: it logs the error and returns
the degenerate disabled throttler, whose Throttle always returns false;
and an enabled configuration with an empty cell list can never yield a
successfully created throttler. -/
theorem claim6 :
    (∀ (verify : Option ThrottlerdataConfiguration → Option String)
        (um : Except String ThrottlerdataConfiguration)
        (cfg : TabletConfig) (e : String),
        tryCreateTxThrottler verify um cfg = Except.error e →
        NewTxThrottler verify um cfg = some (disabledTxThrottler, [Action.logError e])
        ∧ ∀ d : Int,
            TxThrottler.Throttle d disabledTxThrottler = ThrottleOutcome.value false)
    ∧ (∀ (verify : Option ThrottlerdataConfiguration → Option String)
        (tc : ThrottlerdataConfiguration) (cfg : TabletConfig),
        cfg.enableTxThrottler = true → cfg.txThrottlerHealthCheckCells = [] →
        ∀ t : TxThrottler,
          tryCreateTxThrottler verify (Except.ok tc) cfg ≠ Except.ok t) := by
  constructor
  · intro verify um cfg e h
    constructor
    · simp [NewTxThrottler, h, newTxThrottler, disabledTxThrottler]
    · intro d
      simp [TxThrottler.Throttle, disabledTxThrottler]
  · intro verify tc cfg h1 h2 t hc
    simp [tryCreateTxThrottler, h1] at hc
    cases hv : verify (some { maxReplicationLagSec := tc.maxReplicationLagSec }) with
    | some e => simp [newTxThrottler, hv] at hc
    | none => simp [newTxThrottler, hv, h2] at hc

/-- Witness for claim6: a failing prototext unmarshal yields the logged
error and the disabled throttler. -/
theorem claim6_witness :
    NewTxThrottler acceptingVerify (Except.error "boom") sampleTabletConfig
        = some (disabledTxThrottler, [Action.logError "boom"])
    ∧ ∀ d : Int,
        TxThrottler.Throttle d disabledTxThrottler = ThrottleOutcome.value false :=
  claim6.1 acceptingVerify (Except.error "boom") sampleTabletConfig "boom" rfl

/-- Claim C8: whenever Open returns an error, the resulting throttler
state is nil, every created subordinate was released (throttler
creations and closes balance), and no health check, consumer task or
topology watcher was ever created. -/
theorem claim8 : ∀ (fr : Except String Nat) (ur : Except String Unit)
    (t t2 : TxThrottler) (e : String) (acts : List Action),
    TxThrottler.Open fr ur t = (OpenResult.err t2 e, acts) →
    t2.state = none
    ∧ acts.count Action.throttlerCreated = acts.count Action.throttlerClosed
    ∧ Action.healthCheckCreated ∉ acts
    ∧ Action.consumerSpawned ∉ acts
    ∧ ∀ c : String, Action.watcherStarted c ∉ acts := by
  intro fr ur t t2 e acts hopen
  by_cases he : t.config.enabled = false
  · simp [TxThrottler.Open, he] at hopen
  · cases hs : t.state with
    | some s => simp [TxThrottler.Open, he, hs] at hopen
    | none =>
      cases ht : t.target with
      | none => simp [TxThrottler.Open, he, hs, ht] at hopen
      | some tgt =>
        cases fr with
        | error e2 =>
          simp [TxThrottler.Open, he, hs, ht, newTxThrottlerState] at hopen
          obtain ⟨⟨ht2, he2⟩, hacts⟩ := hopen
          subst hacts
          refine ⟨by rw [← ht2], by decide, by decide, by decide, ?_⟩
          intro c
          simp
        | ok tid =>
          cases ur with
          | error e2 =>
            simp [TxThrottler.Open, he, hs, ht, newTxThrottlerState] at hopen
            obtain ⟨⟨ht2, he2⟩, hacts⟩ := hopen
            subst hacts
            refine ⟨by rw [← ht2], by decide, by decide, by decide, ?_⟩
            intro c
            simp
          | ok u =>
            simp [TxThrottler.Open, he, hs, ht, newTxThrottlerState,
              createTxThrottlerHealthCheck] at hopen

/-- Witness for claim8: a throttler factory error surfaces from Open
with a nil state and a balanced, subordinate-free trace. -/
theorem claim8_witness :
    sampleClosed.state = none
    ∧ ([Action.logInfo "TxThrottler: opening"] : List Action).count Action.throttlerCreated
        = ([Action.logInfo "TxThrottler: opening"] : List Action).count Action.throttlerClosed
    ∧ Action.healthCheckCreated ∉ ([Action.logInfo "TxThrottler: opening"] : List Action)
    ∧ Action.consumerSpawned ∉ ([Action.logInfo "TxThrottler: opening"] : List Action)
    ∧ ∀ c : String,
        Action.watcherStarted c ∉ ([Action.logInfo "TxThrottler: opening"] : List Action) :=
  claim8 (Except.error "factory boom") (Except.ok ()) sampleClosed sampleClosed
    "factory boom" [Action.logInfo "TxThrottler: opening"] (by decide)

/-- Claim C9: Open is idempotent — after any non-panicking Open, a
second Open with the same external outcomes leaves the throttler value
(and hence its subordinate objects) unchanged — and Close is
idempotent: a second Close returns the same throttler and performs no
action. -/
theorem claim9 :
    (∀ (fr : Except String Nat) (ur : Except String Unit) (t t2 : TxThrottler),
        afterOpen fr ur t = some t2 → afterOpen fr ur t2 = some t2)
    ∧ (∀ t : TxThrottler,
        TxThrottler.Close (TxThrottler.Close t).1 = ((TxThrottler.Close t).1, [])) := by
  constructor
  · intro fr ur t t2 h
    obtain ⟨cfg, st, tg⟩ := t
    by_cases he : cfg.enabled = false
    · simp [afterOpen, TxThrottler.Open, he] at h
      subst h
      simp [afterOpen, TxThrottler.Open, he]
    · cases st with
      | some s =>
        simp [afterOpen, TxThrottler.Open, he] at h
        subst h
        simp [afterOpen, TxThrottler.Open, he]
      | none =>
        cases tg with
        | none => simp [afterOpen, TxThrottler.Open, he] at h
        | some tgt =>
          cases fr with
          | error e =>
            simp [afterOpen, TxThrottler.Open, he, newTxThrottlerState] at h
            subst h
            simp [afterOpen, TxThrottler.Open, he, newTxThrottlerState]
          | ok tid =>
            cases ur with
            | error e =>
              simp [afterOpen, TxThrottler.Open, he, newTxThrottlerState] at h
              subst h
              simp [afterOpen, TxThrottler.Open, he, newTxThrottlerState]
            | ok u =>
              simp [afterOpen, TxThrottler.Open, he, newTxThrottlerState,
                createTxThrottlerHealthCheck] at h
              subst h
              simp [afterOpen, TxThrottler.Open, he]
  · intro t
    by_cases he : t.config.enabled = false
    · simp [TxThrottler.Close, he]
    · cases hs : t.state with
      | none => simp [TxThrottler.Close, he, hs]
      | some ts => simp [TxThrottler.Close, he, hs]

/-- Witness for claim9: re-opening the concretely opened sample
throttler is a no-op. -/
theorem claim9_witness :
    afterOpen (Except.ok 7) (Except.ok ()) sampleOpened = some sampleOpened :=
  claim9.1 (Except.ok 7) (Except.ok ()) sampleClosed sampleOpened (by decide)
